import Mathlib

/-!
Verification of the gaze-based interaction cognitive POMDP
(`gaze_based_interaction.ipynb`): a `GazeTheory` holding an internal belief
state, a `GazeTask` holding the external ground-truth state, and a `GazeModel`
adapter composing the two into a step/reset decision process.

Floating-point numbers are modelled as real numbers.  The pseudo-random
draws `np.random.normal(0, std, shape)` are modelled by passing a
standard-normal sample `z` explicitly and using `std * z` as the noise
(for `std = 0` the draw is deterministically `0`, in both models).
-/

noncomputable section

namespace Gaze

/-- Modelled from the spec: `get_distance` is provided by the `gazetools`
module, which is not among the sources; §4.1 of the spec defines it as the
standard Euclidean norm of `a - b` for 2D points. -/
def get_distance (a b : ℝ × ℝ) : ℝ :=
  Real.sqrt ((a.1 - b.1) ^ 2 + (a.2 - b.2) ^ 2)

/-- `np.clip(x, -1, 1)` on a scalar. -/
def clipr (x : ℝ) : ℝ :=
  min (max x (-1)) 1

/-- `np.clip(p, -1, 1)` applied componentwise to a 2D point. -/
def clip2 (p : ℝ × ℝ) : ℝ × ℝ :=
  (clipr p.1, clipr p.2)

/-- The internal state dictionary of `GazeTheory.reset_internal_env`. -/
structure InternalState where
  fixation : ℝ × ℝ
  target : ℝ × ℝ
  target_std : ℝ
  width : ℝ
  action : ℝ × ℝ

/-- The external state dictionary of `GazeTask.reset_external_env`. -/
structure ExternalState where
  fixation : ℝ × ℝ
  target : ℝ × ℝ
  width : ℝ

/-- The theoretically motivated parameters set in `GazeTheory.__init__`
(the source spells the first one `oculamotor_noise_weight`). -/
structure GazeTheory where
  oculamotor_noise_weight : ℝ := 0.01
  stimulus_noise_weight : ℝ := 0.09
  step_cost : ℝ := -1

/-- `GazeTheory.reset_internal_env`. -/
def reset_internal_env (external_state : ExternalState) : InternalState :=
  { fixation := (-1, -1)
    target := (0, 0)
    target_std := 0.1
    width := external_state.width
    action := (-1, -1) }

/-- `GazeTheory._update_state_with_action`. -/
def update_state_with_action (s : InternalState) (action : ℝ × ℝ) :
    InternalState :=
  { s with action := action }

/-- `GazeTheory._get_response`: the commanded action plus oculomotor noise
whose std scales with the movement distance, clipped to `[-1, 1]`.
`z` is the standard-normal draw behind `np.random.normal`. -/
def get_response (th : GazeTheory) (s : InternalState) (z : ℝ × ℝ) : ℝ × ℝ :=
  let move_distance := get_distance s.fixation s.action
  let noise_std := th.oculamotor_noise_weight * move_distance
  clip2 (s.action.1 + noise_std * z.1, s.action.2 + noise_std * z.2)

/-- `GazeTask.external_env`: writes the proposed action into the external
fixation, and reports `done` iff the fixation is within `width/2` of the
target; the target and width are untouched. -/
def external_env (e : ExternalState) (action : ℝ × ℝ) : ExternalState × Bool :=
  let e1 : ExternalState := { e with fixation := action }
  let distance := get_distance e1.fixation e1.target
  (e1, if distance < e1.width / 2 then true else false)

/-- `GazeTheory._get_stimulus`: acuity falls off with eccentricity.  The
stimulus is the external target plus noise of std
`stimulus_noise_weight * distance(target, fixation)`, unclipped; returns the
stimulus together with its std.  `z` is the standard-normal draw. -/
def get_stimulus (th : GazeTheory) (e : ExternalState) (z : ℝ × ℝ) :
    (ℝ × ℝ) × ℝ :=
  let eccentricity := get_distance e.target e.fixation
  let stm_std := th.stimulus_noise_weight * eccentricity
  ((e.target.1 + stm_std * z.1, e.target.2 + stm_std * z.2), stm_std)

/-- `GazeTheory.bayes_update`: precision-weighted fusion of two Gaussian
estimates, applied componentwise to the means.  Caveat: at
`stimulus_std = belief_std = 0` the source's numpy division computes
`0.0 / 0.0`, which yields NaN; in this real-number model division by zero
returns `0` instead, so no theorem below asserts the value of a fusion
whose stds are both zero — only that such a call is reached (its arguments
are computed before the division and are modelled faithfully). -/
def bayes_update (stimulus : ℝ × ℝ) (stimulus_std : ℝ) (belief : ℝ × ℝ)
    (belief_std : ℝ) : (ℝ × ℝ) × ℝ :=
  let w1 := belief_std ^ 2 / (stimulus_std ^ 2 + belief_std ^ 2)
  let w2 := stimulus_std ^ 2 / (stimulus_std ^ 2 + belief_std ^ 2)
  ((w1 * stimulus.1 + w2 * belief.1, w1 * stimulus.2 + w2 * belief.2),
    Real.sqrt ((stimulus_std ^ 2 * belief_std ^ 2) /
      (stimulus_std ^ 2 + belief_std ^ 2)))

/-- `GazeTheory._update_state_with_stimulus`: overwrite the belief with the
posterior of the Bayesian fusion. -/
def update_state_with_stimulus (s : InternalState) (stimulus : ℝ × ℝ)
    (stimulus_std : ℝ) : InternalState :=
  let post := bayes_update stimulus stimulus_std s.target s.target_std
  { s with target := post.1, target_std := post.2 }

/-- `GazeTheory._get_obs`: belief mean and its uncertainty. -/
def get_obs (s : InternalState) : ℝ × ℝ × ℝ :=
  (s.target.1, s.target.2, s.target_std)

/-- `GazeTheory._get_reward`: `0` within the acquisition radius of the
internal fixation around the belief mean, else minus the distance. -/
def get_reward (s : InternalState) : ℝ :=
  let distance := get_distance s.fixation s.target
  if distance < s.width / 2 then 0 else -distance

/-- The result of one `CognitivePOMDP.step` cycle: the mutated internal and
external states together with the returned observation, reward and done. -/
structure StepResult where
  internal : InternalState
  external : ExternalState
  obs : ℝ × ℝ × ℝ
  reward : ℝ
  done : Bool

/-- `CognitivePOMDP.step`: stage the action, emit the noisy motor response,
let the task move the external fixation, perceive a noisy stimulus of the
target from the task's (just mutated) state, fuse it into the belief, and
return observation, reward and done.  `zo` and `zs` are the standard-normal
draws behind the oculomotor and stimulus noise. -/
def CognitivePOMDP.step (th : GazeTheory) (s : InternalState)
    (e : ExternalState) (action zo zs : ℝ × ℝ) : StepResult :=
  let s1 := update_state_with_action s action
  let response := get_response th s1 zo
  let task := external_env e response
  let stim := get_stimulus th task.1 zs
  let s2 := update_state_with_stimulus s1 stim.1 stim.2
  { internal := s2
    external := task.1
    obs := get_obs s2
    reward := get_reward s2
    done := task.2 }

/-- `GazeTask.reset_external_env`: fixation at the corner `(-1,-1)`, target
drawn from a clipped `Normal(0, target_loc_std)` per axis (here `zt` is the
standard-normal draw and `target_loc_std = 0.3`), width `0.15`. -/
def reset_external_env (zt : ℝ × ℝ) : ExternalState :=
  { fixation := (-1, -1)
    target := (clipr (0.3 * zt.1), clipr (0.3 * zt.2))
    width := 0.15 }

/-- The mutable state of the `GazeModel` gym adapter. -/
structure ModelState where
  internal : InternalState
  external : ExternalState
  n_step : ℕ

/-- `GazeModel.max_steps`, set to `500` in `GazeModel.__init__`. -/
def max_steps : ℕ := 500

/-- `GazeModel.reset`: zero the step counter, reset the task then the
theory, return the initial observation. -/
def GazeModel.reset (zt : ℝ × ℝ) : ModelState × (ℝ × ℝ × ℝ) :=
  let e := reset_external_env zt
  let s := reset_internal_env e
  (⟨s, e, 0⟩, get_obs s)

/-- `GazeModel.step`: delegate to the theory's step, increment `n_step`,
and force `done := true` once `n_step > max_steps`.  Returns the new adapter
state together with `(obs, reward, done)`. -/
def GazeModel.step (th : GazeTheory) (m : ModelState) (action zo zs : ℝ × ℝ) :
    ModelState × ((ℝ × ℝ × ℝ) × ℝ × Bool) :=
  let r := CognitivePOMDP.step th m.internal m.external action zo zs
  let n := m.n_step + 1
  let done := if n > max_steps then true else r.done
  (⟨r.internal, r.external, n⟩, (r.obs, r.reward, done))

/-- A sequence of `CognitivePOMDP.step` calls: each list entry is one call's
`(action, zo, zs)` input triple. -/
def runSteps (th : GazeTheory) :
    List ((ℝ × ℝ) × (ℝ × ℝ) × (ℝ × ℝ)) → InternalState → ExternalState →
      InternalState × ExternalState
  | [], s, e => (s, e)
  | i :: rest, s, e =>
      let r := CognitivePOMDP.step th s e i.1 i.2.1 i.2.2
      runSteps th rest r.internal r.external

/-- The `GazeTheory` parameterization with both noise weights forced to
zero, as in the spec's determinism property. -/
def zeroNoiseTheory : GazeTheory :=
  { oculamotor_noise_weight := 0, stimulus_noise_weight := 0 }

/-- The default `GazeTheory` parameterization from `__init__`. -/
def defaultTheory : GazeTheory := {}

/-- A concrete episode start: target exactly at the origin (the external
state produced by `reset_external_env` on a zero target draw). -/
def originTarget : ExternalState :=
  ⟨(-1, -1), (0, 0), 0.15⟩

/-- First zero-noise step of that episode, aimed exactly at the target. -/
def zstep1 : StepResult :=
  CognitivePOMDP.step zeroNoiseTheory (reset_internal_env originTarget)
    originTarget (0, 0) (0, 0) (0, 0)

/-- Adapter state after `GazeModel.reset` on the unit target draw (target
lands at `(0.3, 0.3)`) followed by one default-parameter step aimed exactly
at the target with zero noise draws. -/
def reachState1 : ModelState :=
  (GazeModel.step defaultTheory (GazeModel.reset (1, 1)).1 (0.3, 0.3)
    (0, 0) (0, 0)).1

/-- `np.clip` is the identity on in-range values. -/
theorem clipr_of_mem {x : ℝ} (h1 : -1 ≤ x) (h2 : x ≤ 1) : clipr x = x := by
  unfold clipr
  rw [max_eq_left h1, min_eq_left h2]

theorem one_le_sqrt_two : (1:ℝ) ≤ Real.sqrt 2 :=
  (Real.le_sqrt' one_pos).mpr (by norm_num)

theorem get_distance_self (a : ℝ × ℝ) : get_distance a a = 0 := by
  simp [get_distance]

theorem get_distance_nonneg (a b : ℝ × ℝ) : 0 ≤ get_distance a b :=
  Real.sqrt_nonneg _

/-- One `CognitivePOMDP.step` preserves the internal fixation and width:
only `action`, `target` and `target_std` are ever written. -/
theorem step_preserves_fixation_width (th : GazeTheory) (s : InternalState)
    (e : ExternalState) (a zo zs : ℝ × ℝ) :
    (CognitivePOMDP.step th s e a zo zs).internal.fixation = s.fixation ∧
    (CognitivePOMDP.step th s e a zo zs).internal.width = s.width :=
  ⟨rfl, rfl⟩

/-- Any sequence of step calls preserves the internal fixation and width. -/
theorem runSteps_fixation_width (th : GazeTheory)
    (l : List ((ℝ × ℝ) × (ℝ × ℝ) × (ℝ × ℝ))) : ∀ s e,
    (runSteps th l s e).1.fixation = s.fixation ∧
    (runSteps th l s e).1.width = s.width := by
  induction l with
  | nil => intro s e; exact ⟨rfl, rfl⟩
  | cons i rest ih =>
      intro s e
      have h := ih (CognitivePOMDP.step th s e i.1 i.2.1 i.2.2).internal
        (CognitivePOMDP.step th s e i.1 i.2.1 i.2.2).external
      exact ⟨h.1, h.2⟩

/-- C1: in every `CognitivePOMDP.step` cycle, the stimulus std equals
`stimulus_noise_weight * distance(external target, external fixation)` where
the external fixation is exactly the motor response just written by
`external_env` in the same cycle (the post-movement fixation), and the
stimulus fused into the belief is the external target plus that noise,
unclipped. -/
theorem spec_C1 (th : GazeTheory) (s : InternalState) (e : ExternalState)
    (a zo zs : ℝ × ℝ) :
    let response := get_response th (update_state_with_action s a) zo
    let sstd := th.stimulus_noise_weight * get_distance e.target response
    let stim : ℝ × ℝ :=
      (e.target.1 + sstd * zs.1, e.target.2 + sstd * zs.2)
    let r := CognitivePOMDP.step th s e a zo zs
    r.external.fixation = response
    ∧ r.internal.target = (bayes_update stim sstd s.target s.target_std).1
    ∧ r.internal.target_std =
        (bayes_update stim sstd s.target s.target_std).2 :=
  ⟨rfl, rfl, rfl⟩

/-- C2: the reward returned by `CognitivePOMDP.step` is `0` when the
distance between the internal fixation and the belief mean — both taken
from the internal state after this call's Bayesian update — is below
`width / 2`, and minus that distance otherwise. -/
theorem spec_C2 (th : GazeTheory) (s : InternalState) (e : ExternalState)
    (a zo zs : ℝ × ℝ) :
    let r := CognitivePOMDP.step th s e a zo zs
    r.reward =
      if get_distance r.internal.fixation r.internal.target <
          r.internal.width / 2 then 0
      else -(get_distance r.internal.fixation r.internal.target) :=
  rfl

/-- C3: `CognitivePOMDP.step` never writes the internal fixation or width,
so after `reset_internal_env` the internal fixation stays at the reset
value `(-1,-1)` through any sequence of step calls. -/
theorem spec_C3 (th : GazeTheory) (s : InternalState) (e e0 ef : ExternalState)
    (a zo zs : ℝ × ℝ) (l : List ((ℝ × ℝ) × (ℝ × ℝ) × (ℝ × ℝ))) :
    (CognitivePOMDP.step th s e a zo zs).internal.fixation = s.fixation
    ∧ (CognitivePOMDP.step th s e a zo zs).internal.width = s.width
    ∧ (runSteps th l (reset_internal_env e0) ef).1.fixation = (-1, -1) :=
  ⟨rfl, rfl, (runSteps_fixation_width th l _ _).1⟩

/-- C7: `external_env` writes exactly the given action into the external
fixation (no task-side motor noise), leaves target and width unchanged, and
returns `done = true` iff `distance(fixation, target) < width / 2` holds on
the just-updated state. -/
theorem spec_C7 (e : ExternalState) (a : ℝ × ℝ) :
    (external_env e a).1 = { e with fixation := a }
    ∧ (external_env e a).1.target = e.target
    ∧ (external_env e a).1.width = e.width
    ∧ ((external_env e a).2 = true ↔
        get_distance a e.target < e.width / 2) := by
  refine ⟨rfl, rfl, rfl, ?_⟩
  simp only [external_env]
  split_ifs with h <;> simp [h]

/-- The fused std is a square root, hence non-negative. -/
theorem bayes_std_nonneg (z1 z2 : ℝ × ℝ) (s1 s2 : ℝ) :
    0 ≤ (bayes_update z1 s1 z2 s2).2 :=
  Real.sqrt_nonneg _

/-- Fusion never increases the prior std (also in the degenerate case where
both stds vanish, since `x / 0 = 0` in the real model). -/
theorem bayes_std_le (z1 z2 : ℝ × ℝ) (s1 s2 : ℝ) (h2 : 0 ≤ s2) :
    (bayes_update z1 s1 z2 s2).2 ≤ s2 := by
  simp only [bayes_update]
  rw [Real.sqrt_le_iff]
  refine ⟨h2, ?_⟩
  rcases eq_or_lt_of_le (by positivity : (0:ℝ) ≤ s1 ^ 2 + s2 ^ 2) with hd | hd
  · rw [← hd, div_zero]
    positivity
  · rw [div_le_iff₀ hd]
    nlinarith [sq_nonneg s1, sq_nonneg s2, sq_nonneg (s1 * s2)]

/-- With strictly positive stds, fusion strictly decreases both stds. -/
theorem bayes_std_lt (z1 z2 : ℝ × ℝ) (s1 s2 : ℝ) (h1 : 0 < s1)
    (h2 : 0 < s2) :
    (bayes_update z1 s1 z2 s2).2 < s1 ∧ (bayes_update z1 s1 z2 s2).2 < s2 := by
  have hd : (0:ℝ) < s1 ^ 2 + s2 ^ 2 := by positivity
  constructor
  · rw [bayes_update, Real.sqrt_lt' h1, div_lt_iff₀ hd]
    nlinarith [mul_pos (pow_pos h1 2) (pow_pos h1 2)]
  · rw [bayes_update, Real.sqrt_lt' h2, div_lt_iff₀ hd]
    nlinarith [mul_pos (pow_pos h2 2) (pow_pos h2 2)]

/-- Repeated fusion never increases `target_std`. -/
theorem foldl_update_std (l : List ((ℝ × ℝ) × ℝ)) :
    ∀ s : InternalState, 0 ≤ s.target_std →
      (l.foldl (fun st p => update_state_with_stimulus st p.1 p.2)
        s).target_std ≤ s.target_std := by
  induction l with
  | nil => intro s _; exact le_rfl
  | cons p rest ih =>
      intro s hs
      have hstep : (update_state_with_stimulus s p.1 p.2).target_std ≤
          s.target_std := bayes_std_le p.1 s.target p.2 s.target_std hs
      have hnn : 0 ≤ (update_state_with_stimulus s p.1 p.2).target_std :=
        bayes_std_nonneg p.1 s.target p.2 s.target_std
      exact le_trans (ih _ hnn) hstep

/-- C5: for inputs whose stds are not both zero, `bayes_update` returns the
precision-weighted posterior mean, componentwise, and the corresponding
posterior std. -/
theorem spec_C5 (stim belief : ℝ × ℝ) (s1 s2 : ℝ)
    (_h : ¬(s1 = 0 ∧ s2 = 0)) :
    bayes_update stim s1 belief s2 =
      ((s2 ^ 2 / (s1 ^ 2 + s2 ^ 2) * stim.1 +
          s1 ^ 2 / (s1 ^ 2 + s2 ^ 2) * belief.1,
        s2 ^ 2 / (s1 ^ 2 + s2 ^ 2) * stim.2 +
          s1 ^ 2 / (s1 ^ 2 + s2 ^ 2) * belief.2),
       Real.sqrt ((s1 ^ 2 * s2 ^ 2) / (s1 ^ 2 + s2 ^ 2))) :=
  rfl

/-- Witness for C5 at the concrete input `σ1 = 1`, `σ2 = 0`. -/
theorem spec_C5_witness :
    bayes_update ((0:ℝ), (0:ℝ)) 1 (0, 0) 0 =
      ((0 ^ 2 / (1 ^ 2 + 0 ^ 2) * 0 + 1 ^ 2 / (1 ^ 2 + 0 ^ 2) * 0,
        0 ^ 2 / (1 ^ 2 + 0 ^ 2) * 0 + 1 ^ 2 / (1 ^ 2 + 0 ^ 2) * 0),
       Real.sqrt ((1 ^ 2 * 0 ^ 2) / (1 ^ 2 + 0 ^ 2))) :=
  spec_C5 (0, 0) (0, 0) 1 0 (by norm_num)

/-- C6: fusion is commutative in its two `(mean, std)` pairs; with strictly
positive stds the posterior std is strictly below both inputs; and
`target_std` is non-increasing under repeated `update_state_with_stimulus`
calls from a non-negative starting std. -/
theorem spec_C6 (z1 z2 : ℝ × ℝ) (s1 s2 : ℝ) (h1 : 0 < s1) (h2 : 0 < s2)
    (s : InternalState) (hs : 0 ≤ s.target_std) (l : List ((ℝ × ℝ) × ℝ)) :
    bayes_update z1 s1 z2 s2 = bayes_update z2 s2 z1 s1
    ∧ (bayes_update z1 s1 z2 s2).2 < s1
    ∧ (bayes_update z1 s1 z2 s2).2 < s2
    ∧ (l.foldl (fun st p => update_state_with_stimulus st p.1 p.2)
        s).target_std ≤ s.target_std := by
  refine ⟨?_, (bayes_std_lt z1 z2 s1 s2 h1 h2).1,
    (bayes_std_lt z1 z2 s1 s2 h1 h2).2, foldl_update_std l s hs⟩
  simp only [bayes_update, Prod.mk.injEq]
  refine ⟨⟨by ring, by ring⟩, ?_⟩
  congr 1
  ring

/-- Witness for C6 at stds `1, 1`, the reset internal state and the empty
stimulus list. -/
theorem spec_C6_witness :
    bayes_update ((0:ℝ), (0:ℝ)) 1 (0, 0) 1 = bayes_update (0, 0) 1 (0, 0) 1
    ∧ (bayes_update ((0:ℝ), (0:ℝ)) 1 (0, 0) 1).2 < 1
    ∧ (bayes_update ((0:ℝ), (0:ℝ)) 1 (0, 0) 1).2 < 1
    ∧ (([] : List ((ℝ × ℝ) × ℝ)).foldl
        (fun st p => update_state_with_stimulus st p.1 p.2)
        ⟨(-1, -1), (0, 0), 0.1, 0.15, (-1, -1)⟩).target_std ≤
      (⟨(-1, -1), (0, 0), 0.1, 0.15, (-1, -1)⟩ : InternalState).target_std :=
  spec_C6 (0, 0) (0, 0) 1 1 one_pos one_pos
    ⟨(-1, -1), (0, 0), 0.1, 0.15, (-1, -1)⟩ (by norm_num) []

/-- C8: `GazeModel.reset` zeroes `n_step`; each `GazeModel.step` increments
it by exactly one; while the incremented counter is within `max_steps` the
returned `done` is the task's (here: false), and once the counter exceeds
`max_steps` the returned `done` is forced to `true` regardless of distance;
`max_steps` is 500. -/
theorem spec_C8 (th : GazeTheory) (m mcap : ModelState) (a zo zs zt : ℝ × ℝ)
    (hdone : (CognitivePOMDP.step th m.internal m.external a zo zs).done =
      false)
    (hle : m.n_step + 1 ≤ max_steps) (hge : max_steps ≤ mcap.n_step) :
    (GazeModel.reset zt).1.n_step = 0
    ∧ (GazeModel.step th m a zo zs).1.n_step = m.n_step + 1
    ∧ (GazeModel.step th m a zo zs).2.2.2 = false
    ∧ (GazeModel.step th mcap a zo zs).2.2.2 = true
    ∧ max_steps = 500 := by
  refine ⟨rfl, rfl, ?_, ?_, rfl⟩
  · simp only [GazeModel.step]
    rw [if_neg (by omega), hdone]
  · simp only [GazeModel.step]
    rw [if_pos (by omega)]

/-- Witness for C8: a concrete fresh episode whose first step does not meet
the termination condition (counter 0, within the cap) and a concrete state
already at the cap. -/
theorem spec_C8_witness :
    (GazeModel.reset (0, 0)).1.n_step = 0
    ∧ (GazeModel.step defaultTheory
        ⟨reset_internal_env originTarget, originTarget, 0⟩ (1, 1) (0, 0)
        (0, 0)).1.n_step =
      (⟨reset_internal_env originTarget, originTarget, 0⟩ :
        ModelState).n_step + 1
    ∧ (GazeModel.step defaultTheory
        ⟨reset_internal_env originTarget, originTarget, 0⟩ (1, 1) (0, 0)
        (0, 0)).2.2.2 = false
    ∧ (GazeModel.step defaultTheory
        ⟨reset_internal_env originTarget, originTarget, 500⟩ (1, 1) (0, 0)
        (0, 0)).2.2.2 = true
    ∧ max_steps = 500 :=
  spec_C8 defaultTheory ⟨reset_internal_env originTarget, originTarget, 0⟩
    ⟨reset_internal_env originTarget, originTarget, 500⟩ (1, 1) (0, 0)
    (0, 0) (0, 0)
    (by
      simp only [originTarget, CognitivePOMDP.step, update_state_with_action,
        get_response, external_env, get_stimulus, update_state_with_stimulus,
        bayes_update, get_obs, get_reward, clip2, clipr, get_distance,
        reset_internal_env]
      norm_num
      linarith [one_le_sqrt_two])
    (by norm_num [max_steps]) (by norm_num [max_steps])

/-- Full evaluation of the first zero-noise step at the origin target. -/
theorem zstep1_eval :
    zstep1 =
      { internal := ⟨(-1, -1), (0, 0), 0, 0.15, (0, 0)⟩
        external := ⟨(0, 0), (0, 0), 0.15⟩
        obs := (0, 0, 0)
        reward := -Real.sqrt 2
        done := true } := by
  simp only [zstep1, zeroNoiseTheory, originTarget, CognitivePOMDP.step,
    update_state_with_action, get_response, external_env, get_stimulus,
    update_state_with_stimulus, bayes_update, get_obs, get_reward, clip2,
    clipr, get_distance, reset_internal_env]
  norm_num
  linarith [one_le_sqrt_two]

/-- General evaluation of the first zero-noise step aimed exactly at an
in-range target from the reset internal state. -/
theorem step_zero_noise_from_reset (e : ExternalState) (hw : 0 < e.width)
    (ht1 : -1 ≤ e.target.1) (ht2 : e.target.1 ≤ 1)
    (ht3 : -1 ≤ e.target.2) (ht4 : e.target.2 ≤ 1) :
    CognitivePOMDP.step zeroNoiseTheory (reset_internal_env e) e e.target
      (0, 0) (0, 0) =
    { internal := ⟨(-1, -1), e.target, 0, e.width, e.target⟩
      external := ⟨e.target, e.target, e.width⟩
      obs := (e.target.1, e.target.2, 0)
      reward := if get_distance (-1, -1) e.target < e.width / 2 then 0
        else -(get_distance (-1, -1) e.target)
      done := true } := by
  have hclip : clip2 e.target = e.target :=
    Prod.ext (clipr_of_mem ht1 ht2) (clipr_of_mem ht3 ht4)
  simp only [zeroNoiseTheory, CognitivePOMDP.step, update_state_with_action,
    get_response, external_env, get_stimulus, update_state_with_stimulus,
    bayes_update, get_obs, get_reward, reset_internal_env]
  norm_num [get_distance_self]
  refine ⟨hclip, ?_⟩
  rw [hclip, get_distance_self]
  linarith

/-- C4 counterexample: in the zero-noise episode with the target at the
origin, the step aimed exactly at the true target returns reward
`-√2 ≠ 0` while terminating the episode (`done = true`) — the reward is
measured against the internal fixation frozen at `(-1,-1)`, not the actual
gaze — and it leaves `target_std` exactly `0`, so a second such step hands
`bayes_update` two zero stds and a zero weight denominator (where the
source computes `0.0/0.0 = NaN`; no later step's reward stays defined,
let alone reaches `0`). -/
theorem spec_C4_counterexample :
    zstep1.reward = -Real.sqrt 2
    ∧ -Real.sqrt 2 ≠ 0
    ∧ zstep1.done = true
    ∧ zstep1.internal.target_std = 0
    ∧ (get_stimulus zeroNoiseTheory
        (external_env zstep1.external
          (get_response zeroNoiseTheory
            (update_state_with_action zstep1.internal (0, 0)) (0, 0))).1
        (0, 0)).2 = 0
    ∧ (get_stimulus zeroNoiseTheory
        (external_env zstep1.external
          (get_response zeroNoiseTheory
            (update_state_with_action zstep1.internal (0, 0)) (0, 0))).1
        (0, 0)).2 ^ 2 + zstep1.internal.target_std ^ 2 = 0 := by
  have hstim : (get_stimulus zeroNoiseTheory
      (external_env zstep1.external
        (get_response zeroNoiseTheory
          (update_state_with_action zstep1.internal (0, 0)) (0, 0))).1
      (0, 0)).2 = 0 := by
    simp [get_stimulus, zeroNoiseTheory]
  have hstd : zstep1.internal.target_std = 0 := by rw [zstep1_eval]
  refine ⟨by rw [zstep1_eval], ?_, by rw [zstep1_eval], hstd, hstim, ?_⟩
  · have h : 0 < Real.sqrt 2 := Real.sqrt_pos.mpr (by norm_num)
    exact ne_of_lt (by linarith)
  · rw [hstim, hstd]
    norm_num

/-- C4 amended: with both noise weights zero and the action equal to the
in-range true target, the first step deterministically sets the belief to
the exact target, drops `target_std` from `0.1` to `0`, and the task
reports `done = true` (the episode terminates); but the internal fixation
stays `(-1,-1)`, so the returned reward is `0` precisely when the target
lies within `width/2` of `(-1,-1)` — not in general. -/
theorem spec_C4_amended (e : ExternalState) (hw : 0 < e.width)
    (ht1 : -1 ≤ e.target.1) (ht2 : e.target.1 ≤ 1)
    (ht3 : -1 ≤ e.target.2) (ht4 : e.target.2 ≤ 1) :
    (CognitivePOMDP.step zeroNoiseTheory (reset_internal_env e) e e.target
      (0, 0) (0, 0)).internal.target = e.target
    ∧ (CognitivePOMDP.step zeroNoiseTheory (reset_internal_env e) e e.target
        (0, 0) (0, 0)).internal.target_std = 0
    ∧ (CognitivePOMDP.step zeroNoiseTheory (reset_internal_env e) e e.target
        (0, 0) (0, 0)).internal.fixation = (-1, -1)
    ∧ (CognitivePOMDP.step zeroNoiseTheory (reset_internal_env e) e e.target
        (0, 0) (0, 0)).done = true
    ∧ ((CognitivePOMDP.step zeroNoiseTheory (reset_internal_env e) e e.target
        (0, 0) (0, 0)).reward = 0 ↔
        get_distance (-1, -1) e.target < e.width / 2) := by
  rw [step_zero_noise_from_reset e hw ht1 ht2 ht3 ht4]
  refine ⟨rfl, rfl, rfl, rfl, ?_⟩
  split_ifs with h
  · exact ⟨fun _ => h, fun _ => rfl⟩
  · constructor
    · intro h0
      have hd0 : get_distance (-1, -1) e.target = 0 := neg_eq_zero.mp h0
      rw [hd0]
      linarith
    · intro hlt
      exact absurd hlt h

/-- Witness for the amended C4 at the concrete origin-target episode. -/
theorem spec_C4_amended_witness :
    (CognitivePOMDP.step zeroNoiseTheory (reset_internal_env originTarget)
      originTarget originTarget.target (0, 0) (0, 0)).internal.target =
        originTarget.target
    ∧ (CognitivePOMDP.step zeroNoiseTheory (reset_internal_env originTarget)
        originTarget originTarget.target (0, 0) (0, 0)).internal.target_std
        = 0
    ∧ (CognitivePOMDP.step zeroNoiseTheory (reset_internal_env originTarget)
        originTarget originTarget.target (0, 0) (0, 0)).internal.fixation =
        (-1, -1)
    ∧ (CognitivePOMDP.step zeroNoiseTheory (reset_internal_env originTarget)
        originTarget originTarget.target (0, 0) (0, 0)).done = true
    ∧ ((CognitivePOMDP.step zeroNoiseTheory (reset_internal_env originTarget)
        originTarget originTarget.target (0, 0) (0, 0)).reward = 0 ↔
        get_distance (-1, -1) originTarget.target < originTarget.width / 2) :=
  spec_C4_amended originTarget (by norm_num [originTarget])
    (by norm_num [originTarget]) (by norm_num [originTarget])
    (by norm_num [originTarget]) (by norm_num [originTarget])

/-- C9 counterexample: from a reset episode with the target at the origin,
a single `GazeModel.step` with a large stimulus-noise draw returns an
observation whose first component exceeds `1`: the stimulus is unclipped,
so the belief mean can leave the declared `[-1, 1]` box. -/
theorem spec_C9_counterexample :
    1 < (GazeModel.step defaultTheory (GazeModel.reset (0, 0)).1 (1, 1)
      (0, 0) (1000, 0)).2.1.1 := by
  simp only [defaultTheory, GazeModel.step, GazeModel.reset,
    CognitivePOMDP.step, update_state_with_action, get_response,
    external_env, get_stimulus, update_state_with_stimulus, bayes_update,
    get_obs, get_reward, clip2, clipr, get_distance, reset_internal_env,
    reset_external_env]
  norm_num [mul_pow, Real.sq_sqrt]
  linarith [one_le_sqrt_two]

/-- C9 amended: the observation returned by `GazeModel.reset` is exactly
`(0, 0, 0.1)`, which lies in the declared domain; and whenever the stds
handed to the Bayesian fusion inside a `GazeModel.step` are not both zero
(the both-zero case is the NaN-producing division of the source, outside
this real-number model), the fusion's weight denominator is positive and
the third observation component (the belief std) is non-negative.  The
first two components, however, are not confined to `[-1, 1]` after steps,
since the stimulus is unclipped. -/
theorem spec_C9_amended (th : GazeTheory) (m : ModelState)
    (zt a zo zs : ℝ × ℝ)
    (hnd : ¬((get_stimulus th
        (external_env m.external
          (get_response th (update_state_with_action m.internal a) zo)).1
        zs).2 = 0 ∧ m.internal.target_std = 0)) :
    (GazeModel.reset zt).2 = (0, 0, 0.1)
    ∧ 0 < (get_stimulus th
        (external_env m.external
          (get_response th (update_state_with_action m.internal a) zo)).1
        zs).2 ^ 2 + m.internal.target_std ^ 2
    ∧ 0 ≤ (GazeModel.step th m a zo zs).2.1.2.2 := by
  refine ⟨rfl, ?_, Real.sqrt_nonneg _⟩
  rcases not_and_or.mp hnd with h1 | h2
  · have hp := pow_two_pos_of_ne_zero h1
    have := sq_nonneg m.internal.target_std
    linarith
  · have hp := pow_two_pos_of_ne_zero h2
    have := sq_nonneg (get_stimulus th
      (external_env m.external
        (get_response th (update_state_with_action m.internal a) zo)).1
      zs).2
    linarith

/-- Witness for the amended C9: a fresh episode (prior std `0.1 ≠ 0`, so
the fusion is non-degenerate) stepped with the out-of-box stimulus draw. -/
theorem spec_C9_amended_witness :
    (GazeModel.reset (0, 0)).2 = (0, 0, 0.1)
    ∧ 0 < (get_stimulus defaultTheory
        (external_env (⟨reset_internal_env originTarget, originTarget, 0⟩ :
            ModelState).external
          (get_response defaultTheory
            (update_state_with_action
              (⟨reset_internal_env originTarget, originTarget, 0⟩ :
                ModelState).internal (1, 1)) (0, 0))).1
        (1000, 0)).2 ^ 2 +
      (⟨reset_internal_env originTarget, originTarget, 0⟩ :
        ModelState).internal.target_std ^ 2
    ∧ 0 ≤ (GazeModel.step defaultTheory
        ⟨reset_internal_env originTarget, originTarget, 0⟩ (1, 1) (0, 0)
        (1000, 0)).2.1.2.2 :=
  spec_C9_amended defaultTheory
    ⟨reset_internal_env originTarget, originTarget, 0⟩ (0, 0) (1, 1) (0, 0)
    (1000, 0) (by intro hc; norm_num [reset_internal_env] at hc)

/-- Evaluation of the adapter state reached by one exact step to the
target `(0.3, 0.3)` with zero noise draws under default parameters. -/
theorem reachState1_eval :
    reachState1 =
      ⟨⟨(-1, -1), (0.3, 0.3), 0, 0.15, (0.3, 0.3)⟩,
       ⟨(0.3, 0.3), (0.3, 0.3), 0.15⟩, 1⟩ := by
  simp only [reachState1, defaultTheory, GazeModel.step, GazeModel.reset,
    CognitivePOMDP.step, update_state_with_action, get_response,
    external_env, get_stimulus, update_state_with_stimulus, bayes_update,
    get_obs, get_reward, clip2, clipr, get_distance, reset_internal_env,
    reset_external_env]
  norm_num

/-- C10: the zero-division in the Bayesian fusion is reachable from the
public step interface.  After a reset and one `GazeModel.step` whose motor
response lands exactly on the target, `target_std` is exactly `0`; the next
`GazeModel.step` with the same action computes a stimulus std of `0` as
well, so its internal `bayes_update` call receives two zero stds and a zero
weight denominator (in IEEE float semantics, `0.0/0.0` silently yields
NaN). -/
theorem spec_C10 :
    reachState1.internal.target_std = 0
    ∧ (get_stimulus defaultTheory
        (external_env reachState1.external
          (get_response defaultTheory
            (update_state_with_action reachState1.internal (0.3, 0.3))
            (0, 0))).1 (0, 0)).2 = 0
    ∧ (get_stimulus defaultTheory
        (external_env reachState1.external
          (get_response defaultTheory
            (update_state_with_action reachState1.internal (0.3, 0.3))
            (0, 0))).1 (0, 0)).2 ^ 2
        + reachState1.internal.target_std ^ 2 = 0
    ∧ (GazeModel.step defaultTheory reachState1 (0.3, 0.3) (0, 0)
        (0, 0)).1.internal.target_std =
      (bayes_update
        (get_stimulus defaultTheory
          (external_env reachState1.external
            (get_response defaultTheory
              (update_state_with_action reachState1.internal (0.3, 0.3))
              (0, 0))).1 (0, 0)).1
        (get_stimulus defaultTheory
          (external_env reachState1.external
            (get_response defaultTheory
              (update_state_with_action reachState1.internal (0.3, 0.3))
              (0, 0))).1 (0, 0)).2
        reachState1.internal.target reachState1.internal.target_std).2 := by
  have hstd : reachState1.internal.target_std = 0 := by
    rw [reachState1_eval]
  have hstim : (get_stimulus defaultTheory
      (external_env reachState1.external
        (get_response defaultTheory
          (update_state_with_action reachState1.internal (0.3, 0.3))
          (0, 0))).1 (0, 0)).2 = 0 := by
    rw [reachState1_eval]
    simp only [defaultTheory, get_stimulus, external_env, get_response,
      update_state_with_action, clip2, clipr, get_distance]
    norm_num
  refine ⟨hstd, hstim, ?_, rfl⟩
  rw [hstd, hstim]
  norm_num

end Gaze
